import Mathlib

/-!
Shallow embedding of the rk628 HDMI-RX audio rate tracker
(drivers/media/i2c/rk628/rk628_hdmirx.c): the sample-rate estimator,
the FIFO controller and the rate-tracking state machine, together with
proofs of the specified properties.

Machine integers are modelled as Nat (u32 values, reduced mod 2^32
exactly where the C code truncates) and Int (C int values); register
reads are passed in as explicit oracle inputs.
-/

/-- Reinterpret a u32 value (a Nat below 2^32) as a C int (int32). -/
def u32_to_int32 (x : Nat) : Int :=
  if x < 2147483648 then (x : Int) else (x : Int) - 4294967296

/-- Truncate a C int value to a u32 (the effect of assigning int to u32). -/
def int_to_u32 (x : Int) : Nat :=
  (x % 4294967296).toNat

/-- The value of `abs(a - b)` when `a`, `b` are u32 and the difference is
taken in u32 arithmetic, then reinterpreted as int by `abs`. -/
def u32_sub_abs (a b : Nat) : Nat :=
  (u32_to_int32 (int_to_u32 ((a : Int) - (b : Int)))).natAbs

/-- The `supported_fs` table from the source, with its `-1` sentinel. -/
def supported_fs : List Int := [32000, 44100, 48000, 88200, 96000, 176400, 192000, 768000, -1]

/-- The positive entries of `supported_fs`, as naturals (spec vocabulary). -/
def supported_rates : List Nat := [32000, 44100, 48000, 88200, 96000, 176400, 192000, 768000]

/-- The positive entries of `supported_fs`, as integers (spec vocabulary). -/
def supported_rates_int : List Int := [32000, 44100, 48000, 88200, 96000, 176400, 192000, 768000]

/-- Loop body of `is_validfs`: walk the table while entries are positive,
returning true on an exact match. -/
def is_validfs_loop (fs : Int) : List Int → Bool
  | [] => false
  | fs_t :: rest =>
    if fs_t > 0 then
      if fs = fs_t then true else is_validfs_loop fs rest
    else false

/-- `is_validfs` from the source: true iff `fs` exactly equals a positive
table entry. -/
def is_validfs (fs : Int) : Bool :=
  is_validfs_loop fs supported_fs

/-- Loop body of `rk628_hdmirx_audio_find_closest_fs`: walk the table while
entries are positive, returning the first entry within 2000 of `fs`;
when the sentinel is reached it is returned. -/
def find_closest_fs_loop (fs : Int) : List Int → Int
  | [] => 0
  | fs_t :: rest =>
    if fs_t > 0 then
      if (fs - fs_t).natAbs ≤ 2000 then fs_t
      else find_closest_fs_loop fs rest
    else fs_t

/-- `rk628_hdmirx_audio_find_closest_fs` from the source. -/
def rk628_hdmirx_audio_find_closest_fs (fs : Int) : Int :=
  find_closest_fs_loop fs supported_fs

/-- The TMDS clock in Hz derived from the 16-bit clock counter register:
`clkrate = reg & 0xffff; tmdsclk = clkrate * (49500000 / 1000)`. -/
def hdmirx_tmdsclk (clkrate_reg : Nat) : Nat :=
  (clkrate_reg % 65536) * 49500

/-- `_rk628_hdmirx_audio_fs` from the source: estimate the sample rate from
the clock-counter register, the decoded CTS and the decoded N.  The first
division is performed in u64 and truncated to u32 (`fs_audio` is u32),
then divided by 128, snapped by `rk628_hdmirx_audio_find_closest_fs`, and
finally filtered through `is_validfs` (invalid values become 0). -/
def rk628_hdmirx_audio_fs_est (clkrate_reg cts_decoded n_decoded : Nat) : Nat :=
  let tmdsclk := hdmirx_tmdsclk clkrate_reg
  let fs_audio : Nat :=
    if cts_decoded ≠ 0 then
      let fs1 : Nat := (tmdsclk * n_decoded / cts_decoded) % 4294967296
      let fs2 : Nat := fs1 / 128
      int_to_u32 (rk628_hdmirx_audio_find_closest_fs (u32_to_int32 fs2))
    else 0
  if is_validfs (u32_to_int32 fs_audio) then fs_audio else 0

/-- `struct rk628_audiostate` from the source. -/
structure rk628_audiostate where
  hdmirx_aud_clkrate : Nat
  fs_audio : Nat
  ctsn_flag : Nat
  fifo_flag : Nat
  init_state : Int
  pre_state : Int
  fifo_int : Bool
  audio_enable : Bool
  deriving Repr, DecidableEq

/-- `struct rk628_audioinfo` from the source (the model keeps the state
fields; work queues, mutex and device pointers are scheduling plumbing). -/
structure rk628_audioinfo where
  audio_state : rk628_audiostate
  i2s_enabled : Bool
  fifo_ints_en : Bool
  ctsn_ints_en : Bool
  audio_present : Bool
  deriving Repr, DecidableEq

/-- `INIT_FIFO_STATE` from the source. -/
def INIT_FIFO_STATE : Nat := 64

/-- Modelled from the spec: the FIFO overflow interrupt-status bit.  The
header defining `AFIF_OVERFL_ISTS` is not under src/; the mask `0x18`
used in `rk628_hdmirx_audio_enable` pins the overflow/underflow pair to
bits 4 and 3, and the claims depend only on the two bits being distinct. -/
def AFIF_OVERFL_ISTS : Nat := 16

/-- Modelled from the spec: the FIFO underflow interrupt-status bit
(bit 3 of the FIFO interrupt register; see `AFIF_OVERFL_ISTS`). -/
def AFIF_UNDERFL_ISTS : Nat := 8

/-- Modelled from the spec: the CTS-changed interrupt bit of the PDEC
interrupt register.  The header is not under src/; the claims depend only
on the CTS and N bits being distinct. -/
def ACR_CTS_CHG_ICLR : Nat := 2

/-- Modelled from the spec: the N-changed interrupt bit of the PDEC
interrupt register (see `ACR_CTS_CHG_ICLR`). -/
def ACR_N_CHG_ICLR : Nat := 4

/-- `rk628_hdmirx_audio_fifo_init` from the source: clear the FIFO
interrupt flags, pulse the FIFO enable bit once, and reset both tracked
fill levels to `INIT_FIFO_STATE * 4`. -/
def rk628_hdmirx_audio_fifo_init (aif : rk628_audioinfo) : rk628_audioinfo :=
  { aif with audio_state :=
    { aif.audio_state with
      pre_state := (INIT_FIFO_STATE * 4 : Nat)
      init_state := (INIT_FIFO_STATE * 4 : Nat) } }

/-- `rk628_hdmirx_audio_fifo_initd` from the source: the double-pulse
recovery variant; raises the start threshold to 192, pulses the enable
bit twice, restores the threshold, and performs the same state reset as
`rk628_hdmirx_audio_fifo_init`. -/
def rk628_hdmirx_audio_fifo_initd (aif : rk628_audioinfo) : rk628_audioinfo :=
  { aif with audio_state :=
    { aif.audio_state with
      pre_state := (INIT_FIFO_STATE * 4 : Nat)
      init_state := (INIT_FIFO_STATE * 4 : Nat) } }

/-- `rk628_hdmirx_audio_set_fs` from the source: program the audio clock
to `fs * 128` (u32 arithmetic) and record `fs` as the tracked rate. -/
def rk628_hdmirx_audio_set_fs (aif : rk628_audioinfo) (fs_audio : Nat) : rk628_audioinfo :=
  { aif with audio_state :=
    { aif.audio_state with
      hdmirx_aud_clkrate := (fs_audio * 128) % 4294967296
      fs_audio := fs_audio } }

/-- `rk628_hdmirx_audio_clk_inc_rate` from the source: nudge the audio
clock by `dis` Hz (u32 + int arithmetic). -/
def rk628_hdmirx_audio_clk_inc_rate (aif : rk628_audioinfo) (dis : Int) : rk628_audioinfo :=
  { aif with audio_state :=
    { aif.audio_state with
      hdmirx_aud_clkrate := int_to_u32 ((aif.audio_state.hdmirx_aud_clkrate : Int) + dis) } }

/-- `rk628_hdmirx_audio_enable` from the source.  `fifo_ints` is the value
read from the FIFO interrupt-status register.  Returns the new state and
the number of `rk628_hdmirx_audio_fifo_initd` invocations performed. -/
def rk628_hdmirx_audio_enable (aif : rk628_audioinfo) (fifo_ints : Nat) :
    rk628_audioinfo × Nat :=
  let (aif, d) :=
    if fifo_ints &&& 24 = 24 then (rk628_hdmirx_audio_fifo_initd aif, 1)
    else if fifo_ints &&& 24 ≠ 0 then (rk628_hdmirx_audio_fifo_init aif, 0)
    else (aif, 0)
  (⟨{ aif.audio_state with audio_enable := true },
    aif.i2s_enabled, true, aif.ctsn_ints_en, aif.audio_present⟩, d)

/-- Result of one invocation of a tracking tick: the new state, the delay
(ms) selected for the next tick, and the clock nudge applied this tick
(0, +10 or -10 Hz; `rk628_hdmirx_audio_set_fs` reprogrammings are visible
in the state itself). -/
structure TickResult where
  aif : rk628_audioinfo
  delay : Nat
  nudge : Int
  deriving Repr, DecidableEq

/-- The FIFO fill-level block shared by the fall-through paths of
`rk628_csi_delayed_work_audio_v2` (lines 421 to 436 of the source):
dead-band clock nudging and audio-present tracking.  `init_state` and
`pre_state` are the local copies read before the block. -/
def tick_v2_fifo (aif : rk628_audioinfo) (init_state pre_state fifo_status : Int)
    (delay : Nat) : TickResult :=
  let (aif, nudge) :=
    if fifo_status ≠ 0 then
      let aif := { aif with audio_present := true }
      if fifo_status - init_state > 16 ∧ fifo_status - pre_state > 0 then
        (rk628_hdmirx_audio_clk_inc_rate aif 10, (10 : Int))
      else if fifo_status - init_state < -16 ∧ fifo_status - pre_state < 0 then
        (rk628_hdmirx_audio_clk_inc_rate aif (-10), (-10 : Int))
      else (aif, 0)
    else ({ aif with audio_present := false }, 0)
  let aif := { aif with audio_state := { aif.audio_state with pre_state := fifo_status } }
  ⟨aif, delay, nudge⟩

/-- `rk628_csi_delayed_work_audio_v2` from the source.  Oracle inputs:
the clock-counter, CTS and N registers feeding the estimator, the FIFO
interrupt-status register, the FIFO fill-status register (read into an
int), and the sample-flat spare bit. -/
def rk628_csi_delayed_work_audio_v2 (aif : rk628_audioinfo)
    (clkrate_reg cts_decoded n_decoded fifo_ints : Nat) (fifo_status : Int)
    (sample_flat : Bool) : TickResult :=
  let audio_state := aif.audio_state
  let fs_audio := rk628_hdmirx_audio_fs_est clkrate_reg cts_decoded n_decoded
  if fifo_ints &&& (AFIF_UNDERFL_ISTS ||| AFIF_OVERFL_ISTS) ≠ 0 then
    let aif := if is_validfs (u32_to_int32 fs_audio) then
                 rk628_hdmirx_audio_set_fs aif fs_audio
               else aif
    let aif := rk628_hdmirx_audio_fifo_init aif
    let aif := { aif with audio_state := { aif.audio_state with pre_state := 0 } }
    ⟨aif, 500, 0⟩
  else
    let init_state := audio_state.init_state
    let pre_state := audio_state.pre_state
    if ¬ is_validfs (u32_to_int32 fs_audio) then
      tick_v2_fifo aif init_state pre_state fifo_status 1000
    else if u32_sub_abs fs_audio audio_state.fs_audio > 1000 then
      let aif := rk628_hdmirx_audio_set_fs aif fs_audio
      let aif := rk628_hdmirx_audio_fifo_init aif
      let aif := { aif with audio_state := { aif.audio_state with pre_state := 0 } }
      ⟨aif, 500, 0⟩
    else
      tick_v2_fifo aif init_state pre_state fifo_status 500

/-- `rk628_csi_delayed_work_audio` (the older-generation tick) from the
source.  `enable_fifo_ints` is the FIFO interrupt-status value read by
`rk628_hdmirx_audio_enable` when first enabling audio; `cur_state` is the
FIFO fill-status read. -/
def rk628_csi_delayed_work_audio (aif : rk628_audioinfo)
    (clkrate_reg cts_decoded n_decoded enable_fifo_ints : Nat)
    (cur_state : Int) : TickResult :=
  let audio_state := aif.audio_state
  let init_state := audio_state.init_state
  let pre_state := audio_state.pre_state
  let fs_audio := rk628_hdmirx_audio_fs_est clkrate_reg cts_decoded n_decoded
  if ¬ is_validfs (u32_to_int32 fs_audio) then
    ⟨aif, 1000, 0⟩
  else if ¬ audio_state.audio_enable then
    let aif := rk628_hdmirx_audio_set_fs aif fs_audio
    let aif := (rk628_hdmirx_audio_enable aif enable_fifo_ints).1
    ⟨aif, 1000, 0⟩
  else
    let aif := if u32_sub_abs fs_audio audio_state.fs_audio > 1000 then
                 rk628_hdmirx_audio_set_fs aif fs_audio
               else aif
    let aif := { aif with audio_present := decide (cur_state ≠ 0) }
    let (aif, nudge) :=
      if cur_state - init_state > 16 ∧ cur_state - pre_state > 0 then
        (rk628_hdmirx_audio_clk_inc_rate aif 10, (10 : Int))
      else if cur_state ≠ 0 ∧ cur_state - init_state < -16 ∧ cur_state - pre_state < 0 then
        (rk628_hdmirx_audio_clk_inc_rate aif (-10), (-10 : Int))
      else (aif, 0)
    let aif := { aif with audio_state := { aif.audio_state with pre_state := cur_state } }
    ⟨aif, 1000, nudge⟩

/-- Result of one run of the resync work item: the new state, the number
of `rk628_hdmirx_audio_fifo_initd` invocations, and whether the periodic
audio work was scheduled. -/
structure RateChangeResult where
  aif : rk628_audioinfo
  initd_calls : Nat
  scheduled_audio : Bool
  deriving Repr, DecidableEq

/-- `rk628_csi_delayed_work_audio_rate_change` from the source.  Oracle
inputs: the estimator registers, the FIFO interrupt-status value read if
`rk628_hdmirx_audio_enable` runs, and the FIFO fill-status read in the
glitch branch. -/
def rk628_csi_delayed_work_audio_rate_change (aif : rk628_audioinfo)
    (clkrate_reg cts_decoded n_decoded enable_fifo_ints fifo_fillsts : Nat) :
    RateChangeResult :=
  let fs_audio := rk628_hdmirx_audio_fs_est clkrate_reg cts_decoded n_decoded
  let (aif, d1, sched) :=
    if aif.audio_state.ctsn_flag = (ACR_N_CHG_ICLR ||| ACR_CTS_CHG_ICLR) then
      let aif := { aif with audio_state := { aif.audio_state with ctsn_flag := 0 } }
      let (aif, d) :=
        if is_validfs (u32_to_int32 fs_audio) then
          let aif := rk628_hdmirx_audio_set_fs aif fs_audio
          rk628_hdmirx_audio_enable aif enable_fifo_ints
        else (aif, 0)
      (aif, d, true)
    else (aif, 0, false)
  if aif.audio_state.fifo_int then
    let aif := { aif with audio_state := { aif.audio_state with fifo_int := false } }
    let aif := if is_validfs (u32_to_int32 fs_audio) then
                 rk628_hdmirx_audio_set_fs aif fs_audio
               else aif
    let aif := if fifo_fillsts = 0 then rk628_hdmirx_audio_fifo_initd aif
               else rk628_hdmirx_audio_fifo_initd aif
    ⟨aif, d1 + 1, sched⟩
  else ⟨aif, d1, sched⟩

/-- `rk628_csi_isr_ctsn` from the source: accumulate the CTS-changed and
N-changed bits of `pdec_ints`; once both have been observed, disable the
CTS/N interrupts and dispatch the resync work (returned Bool). -/
def rk628_csi_isr_ctsn (aif : rk628_audioinfo) (pdec_ints : Nat) :
    rk628_audioinfo × Bool :=
  let ctsn_mask := ACR_N_CHG_ICLR ||| ACR_CTS_CHG_ICLR
  let flag := aif.audio_state.ctsn_flag
  let flag := if pdec_ints &&& ACR_N_CHG_ICLR ≠ 0 then flag ||| ACR_N_CHG_ICLR else flag
  let flag := if pdec_ints &&& ACR_CTS_CHG_ICLR ≠ 0 then flag ||| ACR_CTS_CHG_ICLR else flag
  let aif := { aif with audio_state := { aif.audio_state with ctsn_flag := flag } }
  if flag = ctsn_mask then
    ({ aif with ctsn_ints_en := false }, true)
  else (aif, false)

/-- `rk628_csi_isr_fifoints` from the source: accumulate the overflow and
underflow bits of `fifo_ints`; once both have been observed, clear the
accumulator, mark the pending glitch and dispatch the resync work
(returned Bool). -/
def rk628_csi_isr_fifoints (aif : rk628_audioinfo) (fifo_ints : Nat) :
    rk628_audioinfo × Bool :=
  let fifo_mask := AFIF_OVERFL_ISTS ||| AFIF_UNDERFL_ISTS
  let flag := aif.audio_state.fifo_flag
  let flag := if fifo_ints &&& AFIF_OVERFL_ISTS ≠ 0 then flag ||| AFIF_OVERFL_ISTS else flag
  let flag := if fifo_ints &&& AFIF_UNDERFL_ISTS ≠ 0 then flag ||| AFIF_UNDERFL_ISTS else flag
  if flag = fifo_mask then
    ({ aif with audio_state :=
       { aif.audio_state with fifo_flag := 0, fifo_int := true } }, true)
  else
    ({ aif with audio_state := { aif.audio_state with fifo_flag := flag } }, false)

/-- The state produced by `devm_kzalloc` in
`rk628_hdmirx_audioinfo_alloc`: all fields zero. -/
def allocState : rk628_audioinfo :=
  ⟨⟨0, 0, 0, 0, 0, 0, false, false⟩, false, false, false, false⟩

/-- `rk628_hdmirx_audio_setup` from the source (its AudioState effects):
reset the tracker state, program the audio clock to 5644800 Hz, and on
the older hardware generation arm the CTS/N interrupts.  `fifo_flag` and
`audio_present` are not reassigned by setup. -/
def rk628_hdmirx_audio_setup (aif : rk628_audioinfo) (i2s_enabled_default : Bool)
    (isRK628F : Bool) : rk628_audioinfo :=
  { aif with
    audio_state :=
      { aif.audio_state with
        ctsn_flag := 0
        fs_audio := 0
        pre_state := 0
        init_state := (INIT_FIFO_STATE * 4 : Nat)
        fifo_int := false
        audio_enable := false
        hdmirx_aud_clkrate := 5644800 }
    fifo_ints_en := false
    ctsn_ints_en := !isRK628F
    i2s_enabled := i2s_enabled_default }

/-- `rk628_hdmirx_audio_present` from the source: total on a NULL handle
(`none`), returning false there. -/
def rk628_hdmirx_audio_present (info : Option rk628_audioinfo) : Bool :=
  match info with
  | none => false
  | some aif => aif.audio_present

/-- `rk628_hdmirx_audio_fs` (the public accessor) from the source: total
on a NULL handle (`none`), returning 0 there. -/
def rk628_hdmirx_audio_fs (info : Option rk628_audioinfo) : Nat :=
  match info with
  | none => 0
  | some aif => aif.audio_state.fs_audio

/-- The states reachable from `rk628_hdmirx_audio_setup` by any sequence
of ticks (either hardware generation), resync work runs, and the two
interrupt entry points, with arbitrary register-read oracles. -/
inductive Reachable : rk628_audioinfo → Prop
  | setup (en v : Bool) : Reachable (rk628_hdmirx_audio_setup allocState en v)
  | tick_v2 (s : rk628_audioinfo) (r c n fi : Nat) (L : Int) (fl : Bool) :
      Reachable s → Reachable (rk628_csi_delayed_work_audio_v2 s r c n fi L fl).aif
  | tick_v1 (s : rk628_audioinfo) (r c n ei : Nat) (L : Int) :
      Reachable s → Reachable (rk628_csi_delayed_work_audio s r c n ei L).aif
  | rate_change (s : rk628_audioinfo) (r c n ei ff : Nat) :
      Reachable s → Reachable (rk628_csi_delayed_work_audio_rate_change s r c n ei ff).aif
  | isr_ctsn (s : rk628_audioinfo) (ints : Nat) :
      Reachable s → Reachable (rk628_csi_isr_ctsn s ints).1
  | isr_fifoints (s : rk628_audioinfo) (ints : Nat) :
      Reachable s → Reachable (rk628_csi_isr_fifoints s ints).1

lemma int_to_u32_lt (x : Int) : int_to_u32 x < 4294967296 := by
  unfold int_to_u32
  have h1 := Int.emod_nonneg x (by norm_num : (4294967296 : Int) ≠ 0)
  have h2 := Int.emod_lt_of_pos x (by norm_num : (0 : Int) < 4294967296)
  omega

lemma is_validfs_iff (x : Int) : is_validfs x = true ↔ x ∈ supported_rates_int := by
  norm_num [is_validfs, supported_fs, is_validfs_loop, supported_rates_int]

lemma is_validfs_u32_mem (x : Nat) (hx : x < 4294967296)
    (h : is_validfs (u32_to_int32 x) = true) : x ∈ supported_rates := by
  rw [is_validfs_iff] at h
  unfold u32_to_int32 at h
  simp only [supported_rates_int, List.mem_cons, List.not_mem_nil, or_false] at h
  split_ifs at h <;>
    rcases h with h | h | h | h | h | h | h | h <;>
      simp only [supported_rates, List.mem_cons, List.not_mem_nil, or_false] <;> omega

lemma est_zero_or_mem (r c n : Nat) :
    rk628_hdmirx_audio_fs_est r c n = 0 ∨ rk628_hdmirx_audio_fs_est r c n ∈ supported_rates := by
  unfold rk628_hdmirx_audio_fs_est
  set f : Nat := if c ≠ 0 then
      int_to_u32 (rk628_hdmirx_audio_find_closest_fs
        (u32_to_int32 ((hdmirx_tmdsclk r * n / c) % 4294967296 / 128)))
    else 0 with hf
  have hlt : f < 4294967296 := by
    rw [hf]; split
    · exact int_to_u32_lt _
    · norm_num
  by_cases hv : is_validfs (u32_to_int32 f) = true
  · right
    simp only [hv, if_true]
    exact is_validfs_u32_mem f hlt hv
  · left
    simp only [Bool.not_eq_true] at hv
    simp only [hv, Bool.false_eq_true, if_false]

/-- Claim C4: for every clock-counter value and every N value, if the CTS
register reads 0 then the sample-rate estimator returns 0. -/
theorem claim_C4 : ∀ clkrate_reg n_decoded : Nat,
    rk628_hdmirx_audio_fs_est clkrate_reg 0 n_decoded = 0 := by
  intro r n
  rfl

/-- Claim C9: calling the FIFO initialization twice leaves the state
identical to calling it once, and in every starting state both the single
and the double call end with `init_state = pre_state = 64 * 4 = 256`. -/
theorem claim_C9 : ∀ aif : rk628_audioinfo,
    rk628_hdmirx_audio_fifo_init (rk628_hdmirx_audio_fifo_init aif) =
      rk628_hdmirx_audio_fifo_init aif ∧
    (rk628_hdmirx_audio_fifo_init aif).audio_state.init_state = 256 ∧
    (rk628_hdmirx_audio_fifo_init aif).audio_state.pre_state = 256 := by
  intro aif
  exact ⟨rfl, rfl, rfl⟩

/-- Claim C10: the public accessors are total on a NULL handle:
`rk628_hdmirx_audio_present` returns false and `rk628_hdmirx_audio_fs`
returns 0 on `none`, without touching any state. -/
theorem claim_C10 :
    rk628_hdmirx_audio_present none = false ∧ rk628_hdmirx_audio_fs none = 0 :=
  ⟨rfl, rfl⟩

/-- Claim C8: for clkCount = 3000, cts = 148500, n = 5644 the estimator
computes tmdsClockHz = 148500000, the 64-bit product does not overflow,
the raw quotient 44093 is within the 2000 Hz window of 44100 with 44100
the strictly closest table entry, and the estimator returns 44100. -/
theorem claim_C8 :
    hdmirx_tmdsclk 3000 = 148500000 ∧
    hdmirx_tmdsclk 3000 * 5644 < 18446744073709551616 ∧
    (hdmirx_tmdsclk 3000 * 5644 / 148500) % 4294967296 / 128 = 44093 ∧
    ((44093 : Int) - 44100).natAbs ≤ 2000 ∧
    (∀ R ∈ supported_rates_int, R ≠ 44100 →
      ((44093 : Int) - 44100).natAbs < ((44093 : Int) - R).natAbs) ∧
    rk628_hdmirx_audio_fs_est 3000 148500 5644 = 44100 := by
  decide

/-- Claim C1 counterexample: fsRaw = 46100 is within 2000 Hz of 48000 and
strictly closer to 48000 than to any other table entry, yet the snapping
function returns 44100 (the first matching entry in table order), not
48000. -/
theorem claim_C1_cex :
    ((46100 : Int) - 48000).natAbs ≤ 2000 ∧
    (∀ R ∈ supported_rates_int, R ≠ 48000 →
      ((46100 : Int) - 48000).natAbs < ((46100 : Int) - R).natAbs) ∧
    rk628_hdmirx_audio_find_closest_fs 46100 = 44100 ∧
    rk628_hdmirx_audio_find_closest_fs 46100 ≠ 48000 := by
  decide

/-- Claim C1 (amended): for every table entry R and raw estimate within
2000 Hz of R, strictly closer to R than to any other entry, and not
within 2000 Hz of any entry earlier in the table (equivalently, smaller),
the snapping function returns R. -/
theorem claim_C1_amended : ∀ R fsRaw : Int, R ∈ supported_rates_int →
    (fsRaw - R).natAbs ≤ 2000 →
    (∀ R2 ∈ supported_rates_int, R2 ≠ R →
      (fsRaw - R).natAbs < (fsRaw - R2).natAbs) →
    (∀ R2 ∈ supported_rates_int, R2 < R → 2000 < (fsRaw - R2).natAbs) →
    rk628_hdmirx_audio_find_closest_fs fsRaw = R := by
  intro R fs hR h1 _h2 h3
  have m1 : (32000 : Int) ∈ supported_rates_int := by decide
  have m2 : (44100 : Int) ∈ supported_rates_int := by decide
  have m3 : (48000 : Int) ∈ supported_rates_int := by decide
  have m4 : (88200 : Int) ∈ supported_rates_int := by decide
  have m5 : (96000 : Int) ∈ supported_rates_int := by decide
  have m6 : (176400 : Int) ∈ supported_rates_int := by decide
  have m7 : (192000 : Int) ∈ supported_rates_int := by decide
  simp only [supported_rates_int, List.mem_cons, List.not_mem_nil, or_false] at hR
  rcases hR with rfl | rfl | rfl | rfl | rfl | rfl | rfl | rfl
  · norm_num [rk628_hdmirx_audio_find_closest_fs, supported_fs, find_closest_fs_loop, h1]
  · have n1 : ¬ ((fs - 32000).natAbs ≤ 2000) := by
      have := h3 32000 m1 (by norm_num); omega
    norm_num [rk628_hdmirx_audio_find_closest_fs, supported_fs, find_closest_fs_loop, h1, n1]
  · have n1 : ¬ ((fs - 32000).natAbs ≤ 2000) := by
      have := h3 32000 m1 (by norm_num); omega
    have n2 : ¬ ((fs - 44100).natAbs ≤ 2000) := by
      have := h3 44100 m2 (by norm_num); omega
    norm_num [rk628_hdmirx_audio_find_closest_fs, supported_fs, find_closest_fs_loop,
      h1, n1, n2]
  · have n1 : ¬ ((fs - 32000).natAbs ≤ 2000) := by
      have := h3 32000 m1 (by norm_num); omega
    have n2 : ¬ ((fs - 44100).natAbs ≤ 2000) := by
      have := h3 44100 m2 (by norm_num); omega
    have n3 : ¬ ((fs - 48000).natAbs ≤ 2000) := by
      have := h3 48000 m3 (by norm_num); omega
    norm_num [rk628_hdmirx_audio_find_closest_fs, supported_fs, find_closest_fs_loop,
      h1, n1, n2, n3]
  · have n1 : ¬ ((fs - 32000).natAbs ≤ 2000) := by
      have := h3 32000 m1 (by norm_num); omega
    have n2 : ¬ ((fs - 44100).natAbs ≤ 2000) := by
      have := h3 44100 m2 (by norm_num); omega
    have n3 : ¬ ((fs - 48000).natAbs ≤ 2000) := by
      have := h3 48000 m3 (by norm_num); omega
    have n4 : ¬ ((fs - 88200).natAbs ≤ 2000) := by
      have := h3 88200 m4 (by norm_num); omega
    norm_num [rk628_hdmirx_audio_find_closest_fs, supported_fs, find_closest_fs_loop,
      h1, n1, n2, n3, n4]
  · have n1 : ¬ ((fs - 32000).natAbs ≤ 2000) := by
      have := h3 32000 m1 (by norm_num); omega
    have n2 : ¬ ((fs - 44100).natAbs ≤ 2000) := by
      have := h3 44100 m2 (by norm_num); omega
    have n3 : ¬ ((fs - 48000).natAbs ≤ 2000) := by
      have := h3 48000 m3 (by norm_num); omega
    have n4 : ¬ ((fs - 88200).natAbs ≤ 2000) := by
      have := h3 88200 m4 (by norm_num); omega
    have n5 : ¬ ((fs - 96000).natAbs ≤ 2000) := by
      have := h3 96000 m5 (by norm_num); omega
    norm_num [rk628_hdmirx_audio_find_closest_fs, supported_fs, find_closest_fs_loop,
      h1, n1, n2, n3, n4, n5]
  · have n1 : ¬ ((fs - 32000).natAbs ≤ 2000) := by
      have := h3 32000 m1 (by norm_num); omega
    have n2 : ¬ ((fs - 44100).natAbs ≤ 2000) := by
      have := h3 44100 m2 (by norm_num); omega
    have n3 : ¬ ((fs - 48000).natAbs ≤ 2000) := by
      have := h3 48000 m3 (by norm_num); omega
    have n4 : ¬ ((fs - 88200).natAbs ≤ 2000) := by
      have := h3 88200 m4 (by norm_num); omega
    have n5 : ¬ ((fs - 96000).natAbs ≤ 2000) := by
      have := h3 96000 m5 (by norm_num); omega
    have n6 : ¬ ((fs - 176400).natAbs ≤ 2000) := by
      have := h3 176400 m6 (by norm_num); omega
    norm_num [rk628_hdmirx_audio_find_closest_fs, supported_fs, find_closest_fs_loop,
      h1, n1, n2, n3, n4, n5, n6]
  · have n1 : ¬ ((fs - 32000).natAbs ≤ 2000) := by
      have := h3 32000 m1 (by norm_num); omega
    have n2 : ¬ ((fs - 44100).natAbs ≤ 2000) := by
      have := h3 44100 m2 (by norm_num); omega
    have n3 : ¬ ((fs - 48000).natAbs ≤ 2000) := by
      have := h3 48000 m3 (by norm_num); omega
    have n4 : ¬ ((fs - 88200).natAbs ≤ 2000) := by
      have := h3 88200 m4 (by norm_num); omega
    have n5 : ¬ ((fs - 96000).natAbs ≤ 2000) := by
      have := h3 96000 m5 (by norm_num); omega
    have n6 : ¬ ((fs - 176400).natAbs ≤ 2000) := by
      have := h3 176400 m6 (by norm_num); omega
    have n7 : ¬ ((fs - 192000).natAbs ≤ 2000) := by
      have := h3 192000 m7 (by norm_num); omega
    norm_num [rk628_hdmirx_audio_find_closest_fs, supported_fs, find_closest_fs_loop,
      h1, n1, n2, n3, n4, n5, n6, n7]

/-- Claim C1 amended, witnessed at R = 48000, fsRaw = 47000. -/
theorem claim_C1_amended_witness :
    rk628_hdmirx_audio_find_closest_fs 47000 = 48000 :=
  claim_C1_amended 48000 47000 (by decide) (by decide) (by decide) (by decide)

/-- Claim C2 counterexample: fsRaw = 10000 is not within 2000 Hz of any
table entry, and the snapping function returns the table sentinel -1, not
fsRaw unmodified. -/
theorem claim_C2_cex :
    (∀ R ∈ supported_rates_int, 2000 < ((10000 : Int) - R).natAbs) ∧
    rk628_hdmirx_audio_find_closest_fs 10000 = -1 ∧
    rk628_hdmirx_audio_find_closest_fs 10000 ≠ 10000 := by
  decide

/-- Claim C2 (amended): whenever fsRaw is not within 2000 Hz of any table
entry, the snapping function returns the table sentinel -1 (which fails
`is_validfs`, so callers treat it as invalid). -/
theorem claim_C2_amended : ∀ fsRaw : Int,
    (∀ R ∈ supported_rates_int, 2000 < (fsRaw - R).natAbs) →
    rk628_hdmirx_audio_find_closest_fs fsRaw = -1 := by
  intro fs h
  have n1 : ¬ ((fs - 32000).natAbs ≤ 2000) := by
    have := h 32000 (by decide); omega
  have n2 : ¬ ((fs - 44100).natAbs ≤ 2000) := by
    have := h 44100 (by decide); omega
  have n3 : ¬ ((fs - 48000).natAbs ≤ 2000) := by
    have := h 48000 (by decide); omega
  have n4 : ¬ ((fs - 88200).natAbs ≤ 2000) := by
    have := h 88200 (by decide); omega
  have n5 : ¬ ((fs - 96000).natAbs ≤ 2000) := by
    have := h 96000 (by decide); omega
  have n6 : ¬ ((fs - 176400).natAbs ≤ 2000) := by
    have := h 176400 (by decide); omega
  have n7 : ¬ ((fs - 192000).natAbs ≤ 2000) := by
    have := h 192000 (by decide); omega
  have n8 : ¬ ((fs - 768000).natAbs ≤ 2000) := by
    have := h 768000 (by decide); omega
  norm_num [rk628_hdmirx_audio_find_closest_fs, supported_fs, find_closest_fs_loop,
    n1, n2, n3, n4, n5, n6, n7, n8]

/-- Claim C2 amended, witnessed at fsRaw = 100000. -/
theorem claim_C2_amended_witness :
    rk628_hdmirx_audio_find_closest_fs 100000 = -1 :=
  claim_C2_amended 100000 (by decide)

@[simp] lemma set_fs_fifo_int (aif : rk628_audioinfo) (fs : Nat) :
    (rk628_hdmirx_audio_set_fs aif fs).audio_state.fifo_int = aif.audio_state.fifo_int := rfl

@[simp] lemma set_fs_fifo_flag (aif : rk628_audioinfo) (fs : Nat) :
    (rk628_hdmirx_audio_set_fs aif fs).audio_state.fifo_flag = aif.audio_state.fifo_flag := rfl

@[simp] lemma set_fs_ctsn_flag (aif : rk628_audioinfo) (fs : Nat) :
    (rk628_hdmirx_audio_set_fs aif fs).audio_state.ctsn_flag = aif.audio_state.ctsn_flag := rfl

@[simp] lemma fifo_initd_fifo_int (aif : rk628_audioinfo) :
    (rk628_hdmirx_audio_fifo_initd aif).audio_state.fifo_int = aif.audio_state.fifo_int := rfl

@[simp] lemma fifo_initd_fifo_flag (aif : rk628_audioinfo) :
    (rk628_hdmirx_audio_fifo_initd aif).audio_state.fifo_flag = aif.audio_state.fifo_flag := rfl

@[simp] lemma fifo_initd_ctsn_flag (aif : rk628_audioinfo) :
    (rk628_hdmirx_audio_fifo_initd aif).audio_state.ctsn_flag = aif.audio_state.ctsn_flag := rfl

@[simp] lemma fifo_init_fifo_int (aif : rk628_audioinfo) :
    (rk628_hdmirx_audio_fifo_init aif).audio_state.fifo_int = aif.audio_state.fifo_int := rfl

@[simp] lemma fifo_init_fifo_flag (aif : rk628_audioinfo) :
    (rk628_hdmirx_audio_fifo_init aif).audio_state.fifo_flag = aif.audio_state.fifo_flag := rfl

@[simp] lemma fifo_init_ctsn_flag (aif : rk628_audioinfo) :
    (rk628_hdmirx_audio_fifo_init aif).audio_state.ctsn_flag = aif.audio_state.ctsn_flag := rfl

lemma isr_fifoints_overfl_from0 (t : rk628_audioinfo) (h : t.audio_state.fifo_flag = 0) :
    rk628_csi_isr_fifoints t AFIF_OVERFL_ISTS =
      ({ t with audio_state := { t.audio_state with fifo_flag := 16 } }, false) := by
  simp only [rk628_csi_isr_fifoints, h, AFIF_OVERFL_ISTS, AFIF_UNDERFL_ISTS,
    show ((16 : Nat) &&& 16) = 16 from by decide,
    show ((16 : Nat) &&& 8) = 0 from by decide,
    show ((0 : Nat) ||| 16) = 16 from by decide,
    show ((16 : Nat) ||| 8) = 24 from by decide]
  norm_num

lemma isr_fifoints_underfl_from0 (t : rk628_audioinfo) (h : t.audio_state.fifo_flag = 0) :
    rk628_csi_isr_fifoints t AFIF_UNDERFL_ISTS =
      ({ t with audio_state := { t.audio_state with fifo_flag := 8 } }, false) := by
  simp only [rk628_csi_isr_fifoints, h, AFIF_OVERFL_ISTS, AFIF_UNDERFL_ISTS,
    show ((8 : Nat) &&& 16) = 0 from by decide,
    show ((8 : Nat) &&& 8) = 8 from by decide,
    show ((0 : Nat) ||| 8) = 8 from by decide,
    show ((16 : Nat) ||| 8) = 24 from by decide]
  norm_num

lemma isr_fifoints_underfl_after_overfl (t : rk628_audioinfo)
    (h : t.audio_state.fifo_flag = 16) :
    rk628_csi_isr_fifoints t AFIF_UNDERFL_ISTS =
      ({ t with audio_state :=
         { t.audio_state with fifo_flag := 0, fifo_int := true } }, true) := by
  simp only [rk628_csi_isr_fifoints, h, AFIF_OVERFL_ISTS, AFIF_UNDERFL_ISTS,
    show ((8 : Nat) &&& 16) = 0 from by decide,
    show ((8 : Nat) &&& 8) = 8 from by decide,
    show ((16 : Nat) ||| 8) = 24 from by decide]
  norm_num
  decide

lemma rate_change_glitch (t : rk628_audioinfo) (r c n ei ff : Nat)
    (hc : t.audio_state.ctsn_flag = 0) (hi : t.audio_state.fifo_int = true) :
    (rk628_csi_delayed_work_audio_rate_change t r c n ei ff).initd_calls = 1 ∧
    (rk628_csi_delayed_work_audio_rate_change t r c n ei ff).scheduled_audio = false ∧
    (rk628_csi_delayed_work_audio_rate_change t r c n ei ff).aif.audio_state.fifo_int = false ∧
    (rk628_csi_delayed_work_audio_rate_change t r c n ei ff).aif.audio_state.fifo_flag
      = t.audio_state.fifo_flag ∧
    (rk628_csi_delayed_work_audio_rate_change t r c n ei ff).aif.audio_state.ctsn_flag = 0 := by
  simp only [rk628_csi_delayed_work_audio_rate_change, hc, hi,
    ACR_N_CHG_ICLR, ACR_CTS_CHG_ICLR,
    show ((4 : Nat) ||| 2) = 6 from by decide]
  norm_num
  split_ifs <;> simp [hc, hi]

lemma rate_change_quiet (t : rk628_audioinfo) (r c n ei ff : Nat)
    (hc : t.audio_state.ctsn_flag = 0) (hi : t.audio_state.fifo_int = false) :
    rk628_csi_delayed_work_audio_rate_change t r c n ei ff = ⟨t, 0, false⟩ := by
  simp only [rk628_csi_delayed_work_audio_rate_change, hc, hi,
    ACR_N_CHG_ICLR, ACR_CTS_CHG_ICLR,
    show ((4 : Nat) ||| 2) = 6 from by decide]
  norm_num
  exact hi

lemma isr_ctsn_cts_from0 (t : rk628_audioinfo) (h : t.audio_state.ctsn_flag = 0) :
    rk628_csi_isr_ctsn t ACR_CTS_CHG_ICLR =
      ({ t with audio_state := { t.audio_state with ctsn_flag := 2 } }, false) := by
  simp only [rk628_csi_isr_ctsn, h, ACR_N_CHG_ICLR, ACR_CTS_CHG_ICLR,
    show ((2 : Nat) &&& 4) = 0 from by decide,
    show ((2 : Nat) &&& 2) = 2 from by decide,
    show ((0 : Nat) ||| 2) = 2 from by decide,
    show ((4 : Nat) ||| 2) = 6 from by decide]
  norm_num

lemma isr_ctsn_n_after_cts (t : rk628_audioinfo) (h : t.audio_state.ctsn_flag = 2) :
    rk628_csi_isr_ctsn t ACR_N_CHG_ICLR =
      ({ t with ctsn_ints_en := false, audio_state := { t.audio_state with ctsn_flag := 6 } }, true) := by
  simp only [rk628_csi_isr_ctsn, h, ACR_N_CHG_ICLR, ACR_CTS_CHG_ICLR,
    show ((4 : Nat) &&& 4) = 4 from by decide,
    show ((4 : Nat) &&& 2) = 0 from by decide,
    show ((2 : Nat) ||| 4) = 6 from by decide,
    show ((4 : Nat) ||| 2) = 6 from by decide]
  norm_num

/-- Claim C6: starting with no accumulated CTS/N flags, a call carrying
only the CTS-changed bit does not dispatch; the following call carrying
only the N-changed bit dispatches exactly one resync and disables the
CTS/N interrupt notifications; and in general a dispatch can only happen
once the accumulated flag word holds both bits. -/
theorem claim_C6 (s : rk628_audioinfo) (hc : s.audio_state.ctsn_flag = 0) :
    (rk628_csi_isr_ctsn s ACR_CTS_CHG_ICLR).2 = false ∧
    (rk628_csi_isr_ctsn (rk628_csi_isr_ctsn s ACR_CTS_CHG_ICLR).1 ACR_N_CHG_ICLR).2 = true ∧
    (rk628_csi_isr_ctsn (rk628_csi_isr_ctsn s ACR_CTS_CHG_ICLR).1
       ACR_N_CHG_ICLR).1.ctsn_ints_en = false ∧
    (∀ (t : rk628_audioinfo) (ints : Nat), (rk628_csi_isr_ctsn t ints).2 = true →
      (rk628_csi_isr_ctsn t ints).1.audio_state.ctsn_flag =
        (ACR_N_CHG_ICLR ||| ACR_CTS_CHG_ICLR)) := by
  have e1 := isr_ctsn_cts_from0 s hc
  have h1 : (rk628_csi_isr_ctsn s ACR_CTS_CHG_ICLR).1.audio_state.ctsn_flag = 2 := by
    rw [e1]
  have e2 := isr_ctsn_n_after_cts _ h1
  refine ⟨by rw [e1], by rw [e2], by rw [e2], ?_⟩
  intro t ints h
  simp only [rk628_csi_isr_ctsn] at h ⊢
  split_ifs at h ⊢ <;> simp_all

/-- Claim C6, witnessed at the state produced by audio setup. -/
theorem claim_C6_witness :
    (rk628_csi_isr_ctsn (rk628_hdmirx_audio_setup allocState false false)
       ACR_CTS_CHG_ICLR).2 = false ∧
    (rk628_csi_isr_ctsn
       (rk628_csi_isr_ctsn (rk628_hdmirx_audio_setup allocState false false)
          ACR_CTS_CHG_ICLR).1 ACR_N_CHG_ICLR).2 = true ∧
    (rk628_csi_isr_ctsn
       (rk628_csi_isr_ctsn (rk628_hdmirx_audio_setup allocState false false)
          ACR_CTS_CHG_ICLR).1 ACR_N_CHG_ICLR).1.ctsn_ints_en = false :=
  have h := claim_C6 (rk628_hdmirx_audio_setup allocState false false) (by decide)
  ⟨h.1, h.2.1, h.2.2.1⟩

/-- Claim C5: from a state with no accumulated flags, a FIFO-error
notification carrying only OVERFLOW does not dispatch; a second carrying
only UNDERFLOW dispatches exactly one resync; that resync run performs
exactly one double FIFO reinitialization (whatever the fill status read,
so regardless of overflow versus underflow) and afterwards the
accumulated flags and the pending-glitch marker are cleared, so a further
notification with a single error bit neither dispatches nor leads to
another reinitialization. -/
theorem claim_C5 (s : rk628_audioinfo) (r c n ei ff r2 c2 n2 ei2 ff2 b : Nat)
    (hf : s.audio_state.fifo_flag = 0) (hc : s.audio_state.ctsn_flag = 0)
    (hb : b = AFIF_OVERFL_ISTS ∨ b = AFIF_UNDERFL_ISTS) :
    (rk628_csi_isr_fifoints s AFIF_OVERFL_ISTS).2 = false ∧
    (rk628_csi_isr_fifoints (rk628_csi_isr_fifoints s AFIF_OVERFL_ISTS).1
       AFIF_UNDERFL_ISTS).2 = true ∧
    (rk628_csi_delayed_work_audio_rate_change
       (rk628_csi_isr_fifoints (rk628_csi_isr_fifoints s AFIF_OVERFL_ISTS).1
          AFIF_UNDERFL_ISTS).1 r c n ei ff).initd_calls = 1 ∧
    (rk628_csi_delayed_work_audio_rate_change
       (rk628_csi_isr_fifoints (rk628_csi_isr_fifoints s AFIF_OVERFL_ISTS).1
          AFIF_UNDERFL_ISTS).1 r c n ei ff).aif.audio_state.fifo_int = false ∧
    (rk628_csi_delayed_work_audio_rate_change
       (rk628_csi_isr_fifoints (rk628_csi_isr_fifoints s AFIF_OVERFL_ISTS).1
          AFIF_UNDERFL_ISTS).1 r c n ei ff).aif.audio_state.fifo_flag = 0 ∧
    (rk628_csi_isr_fifoints
       (rk628_csi_delayed_work_audio_rate_change
          (rk628_csi_isr_fifoints (rk628_csi_isr_fifoints s AFIF_OVERFL_ISTS).1
             AFIF_UNDERFL_ISTS).1 r c n ei ff).aif b).2 = false ∧
    (rk628_csi_delayed_work_audio_rate_change
       (rk628_csi_isr_fifoints
          (rk628_csi_delayed_work_audio_rate_change
             (rk628_csi_isr_fifoints (rk628_csi_isr_fifoints s AFIF_OVERFL_ISTS).1
                AFIF_UNDERFL_ISTS).1 r c n ei ff).aif b).1
       r2 c2 n2 ei2 ff2).initd_calls = 0 := by
  have e1 := isr_fifoints_overfl_from0 s hf
  have h1f : (rk628_csi_isr_fifoints s AFIF_OVERFL_ISTS).1.audio_state.fifo_flag = 16 := by
    rw [e1]
  have h1c : (rk628_csi_isr_fifoints s AFIF_OVERFL_ISTS).1.audio_state.ctsn_flag = 0 := by
    rw [e1]; exact hc
  have e2 := isr_fifoints_underfl_after_overfl _ h1f
  have h2c : (rk628_csi_isr_fifoints (rk628_csi_isr_fifoints s AFIF_OVERFL_ISTS).1
      AFIF_UNDERFL_ISTS).1.audio_state.ctsn_flag = 0 := by
    rw [e2]; exact h1c
  have h2i : (rk628_csi_isr_fifoints (rk628_csi_isr_fifoints s AFIF_OVERFL_ISTS).1
      AFIF_UNDERFL_ISTS).1.audio_state.fifo_int = true := by
    rw [e2]
  have h2f : (rk628_csi_isr_fifoints (rk628_csi_isr_fifoints s AFIF_OVERFL_ISTS).1
      AFIF_UNDERFL_ISTS).1.audio_state.fifo_flag = 0 := by
    rw [e2]
  obtain ⟨g1, g2, g3, g4, g5⟩ := rate_change_glitch _ r c n ei ff h2c h2i
  have g4f := g4.trans h2f
  rcases hb with rfl | rfl
  · have e3 := isr_fifoints_overfl_from0 _ g4f
    have h3c : (rk628_csi_isr_fifoints
        (rk628_csi_delayed_work_audio_rate_change
           (rk628_csi_isr_fifoints (rk628_csi_isr_fifoints s AFIF_OVERFL_ISTS).1
              AFIF_UNDERFL_ISTS).1 r c n ei ff).aif
        AFIF_OVERFL_ISTS).1.audio_state.ctsn_flag = 0 := by
      rw [e3]; exact g5
    have h3i : (rk628_csi_isr_fifoints
        (rk628_csi_delayed_work_audio_rate_change
           (rk628_csi_isr_fifoints (rk628_csi_isr_fifoints s AFIF_OVERFL_ISTS).1
              AFIF_UNDERFL_ISTS).1 r c n ei ff).aif
        AFIF_OVERFL_ISTS).1.audio_state.fifo_int = false := by
      rw [e3]; exact g3
    have e4 := rate_change_quiet _ r2 c2 n2 ei2 ff2 h3c h3i
    exact ⟨by rw [e1], by rw [e2], g1, g3, g4f, by rw [e3], by rw [e4]⟩
  · have e3 := isr_fifoints_underfl_from0 _ g4f
    have h3c : (rk628_csi_isr_fifoints
        (rk628_csi_delayed_work_audio_rate_change
           (rk628_csi_isr_fifoints (rk628_csi_isr_fifoints s AFIF_OVERFL_ISTS).1
              AFIF_UNDERFL_ISTS).1 r c n ei ff).aif
        AFIF_UNDERFL_ISTS).1.audio_state.ctsn_flag = 0 := by
      rw [e3]; exact g5
    have h3i : (rk628_csi_isr_fifoints
        (rk628_csi_delayed_work_audio_rate_change
           (rk628_csi_isr_fifoints (rk628_csi_isr_fifoints s AFIF_OVERFL_ISTS).1
              AFIF_UNDERFL_ISTS).1 r c n ei ff).aif
        AFIF_UNDERFL_ISTS).1.audio_state.fifo_int = false := by
      rw [e3]; exact g3
    have e4 := rate_change_quiet _ r2 c2 n2 ei2 ff2 h3c h3i
    exact ⟨by rw [e1], by rw [e2], g1, g3, g4f, by rw [e3], by rw [e4]⟩

/-- Claim C5, witnessed at the state produced by audio setup with all
register oracles zero and the stray third bit being OVERFLOW. -/
theorem claim_C5_witness :
    (rk628_csi_isr_fifoints (rk628_hdmirx_audio_setup allocState false false)
       AFIF_OVERFL_ISTS).2 = false ∧
    (rk628_csi_isr_fifoints
       (rk628_csi_isr_fifoints (rk628_hdmirx_audio_setup allocState false false)
          AFIF_OVERFL_ISTS).1 AFIF_UNDERFL_ISTS).2 = true ∧
    (rk628_csi_delayed_work_audio_rate_change
       (rk628_csi_isr_fifoints
          (rk628_csi_isr_fifoints (rk628_hdmirx_audio_setup allocState false false)
             AFIF_OVERFL_ISTS).1 AFIF_UNDERFL_ISTS).1 0 0 0 0 0).initd_calls = 1 ∧
    (rk628_csi_delayed_work_audio_rate_change
       (rk628_csi_isr_fifoints
          (rk628_csi_delayed_work_audio_rate_change
             (rk628_csi_isr_fifoints
                (rk628_csi_isr_fifoints (rk628_hdmirx_audio_setup allocState false false)
                   AFIF_OVERFL_ISTS).1 AFIF_UNDERFL_ISTS).1 0 0 0 0 0).aif
          AFIF_OVERFL_ISTS).1 0 0 0 0 0).initd_calls = 0 :=
  have h := claim_C5 (rk628_hdmirx_audio_setup allocState false false)
    0 0 0 0 0 0 0 0 0 0 AFIF_OVERFL_ISTS (by decide) (by decide) (Or.inl rfl)
  ⟨h.1, h.2.1, h.2.2.1, h.2.2.2.2.2.2⟩

/-- Claim C7: in a v2 tracking tick with no FIFO error interrupt, a valid
estimated rate and a stable rate (within 1000 Hz of the tracked one),
fill levels within 16 of the reference level produce no clock nudge
(the dead-band is inclusive at exactly 16); a +10 Hz nudge requires
strictly `L - init > 16` together with `L - pre > 0`, and a -10 Hz nudge
requires strictly `L - init < -16` together with `L - pre < 0`. -/
theorem claim_C7 (aif : rk628_audioinfo) (r c n fi : Nat) (L : Int) (fl : Bool)
    (hints : fi &&& (AFIF_UNDERFL_ISTS ||| AFIF_OVERFL_ISTS) = 0)
    (hvalid : is_validfs (u32_to_int32 (rk628_hdmirx_audio_fs_est r c n)) = true)
    (hstable : u32_sub_abs (rk628_hdmirx_audio_fs_est r c n)
      aif.audio_state.fs_audio ≤ 1000) :
    ((L - aif.audio_state.init_state).natAbs ≤ 16 →
      (rk628_csi_delayed_work_audio_v2 aif r c n fi L fl).nudge = 0) ∧
    ((rk628_csi_delayed_work_audio_v2 aif r c n fi L fl).nudge = 10 →
      16 < L - aif.audio_state.init_state ∧ 0 < L - aif.audio_state.pre_state) ∧
    ((rk628_csi_delayed_work_audio_v2 aif r c n fi L fl).nudge = -10 →
      L - aif.audio_state.init_state < -16 ∧ L - aif.audio_state.pre_state < 0) := by
  have hns : ¬ (1000 < u32_sub_abs (rk628_hdmirx_audio_fs_est r c n)
      aif.audio_state.fs_audio) := by omega
  simp only [rk628_csi_delayed_work_audio_v2, hints, hvalid, hns]
  norm_num
  unfold tick_v2_fifo
  split_ifs with h1 h2 h3 <;> simp <;> omega

/-- A concrete tracking state used to witness claim C7: tracked rate
48000 Hz, reference and previous fill levels at 256. -/
def c7_state : rk628_audioinfo :=
  ⟨⟨6144000, 48000, 0, 0, 256, 256, false, true⟩, true, true, false, true⟩

/-- Claim C7, witnessed with estimator registers giving exactly 48000 Hz
and a fill level equal to the reference level (no nudge). -/
theorem claim_C7_witness :
    (rk628_csi_delayed_work_audio_v2 c7_state 3000 148500 6144 0 256 false).nudge = 0 :=
  (claim_C7 c7_state 3000 148500 6144 0 256 false (by decide) (by decide) (by decide)).1
    (by decide)

lemma tick_v2_fifo_fs (aif : rk628_audioinfo) (i p L : Int) (d : Nat) :
    (tick_v2_fifo aif i p L d).aif.audio_state.fs_audio = aif.audio_state.fs_audio := by
  unfold tick_v2_fifo
  split_ifs <;> rfl

lemma enable_fs (aif : rk628_audioinfo) (fi : Nat) :
    (rk628_hdmirx_audio_enable aif fi).1.audio_state.fs_audio
      = aif.audio_state.fs_audio := by
  unfold rk628_hdmirx_audio_enable
  split_ifs <;> rfl

lemma tick_v2_fs (aif : rk628_audioinfo) (r c n fi : Nat) (L : Int) (fl : Bool) :
    (rk628_csi_delayed_work_audio_v2 aif r c n fi L fl).aif.audio_state.fs_audio
      = aif.audio_state.fs_audio ∨
    (rk628_csi_delayed_work_audio_v2 aif r c n fi L fl).aif.audio_state.fs_audio
      = rk628_hdmirx_audio_fs_est r c n := by
  simp only [rk628_csi_delayed_work_audio_v2]
  split_ifs <;>
    first
      | (right; rfl)
      | (left; rfl)
      | (left; exact tick_v2_fifo_fs _ _ _ _ _)

lemma tick_v1_fs (aif : rk628_audioinfo) (r c n ei : Nat) (L : Int) :
    (rk628_csi_delayed_work_audio aif r c n ei L).aif.audio_state.fs_audio
      = aif.audio_state.fs_audio ∨
    (rk628_csi_delayed_work_audio aif r c n ei L).aif.audio_state.fs_audio
      = rk628_hdmirx_audio_fs_est r c n := by
  simp only [rk628_csi_delayed_work_audio]
  split_ifs <;>
    first
      | (right; rfl)
      | (left; rfl)
      | (right; exact enable_fs _ _)

lemma rate_change_fs (aif : rk628_audioinfo) (r c n ei ff : Nat) :
    (rk628_csi_delayed_work_audio_rate_change aif r c n ei ff).aif.audio_state.fs_audio
      = aif.audio_state.fs_audio ∨
    (rk628_csi_delayed_work_audio_rate_change aif r c n ei ff).aif.audio_state.fs_audio
      = rk628_hdmirx_audio_fs_est r c n := by
  simp only [rk628_csi_delayed_work_audio_rate_change]
  split_ifs <;>
    first
      | (right; rfl)
      | (left; rfl)
      | (right; exact enable_fs _ _)

lemma isr_ctsn_fs (aif : rk628_audioinfo) (ints : Nat) :
    (rk628_csi_isr_ctsn aif ints).1.audio_state.fs_audio
      = aif.audio_state.fs_audio := by
  simp only [rk628_csi_isr_ctsn]
  split_ifs <;> rfl

lemma isr_fifoints_fs (aif : rk628_audioinfo) (ints : Nat) :
    (rk628_csi_isr_fifoints aif ints).1.audio_state.fs_audio
      = aif.audio_state.fs_audio := by
  simp only [rk628_csi_isr_fifoints]
  split_ifs <;> rfl

/-- Claim C3: in every state reachable from setup by any sequence of
ticks, resync runs and interrupt notifications, the tracked sample rate
is either 0 or one of the supported rates
{32000, 44100, 48000, 88200, 96000, 176400, 192000, 768000}. -/
theorem claim_C3 : ∀ s : rk628_audioinfo, Reachable s →
    s.audio_state.fs_audio = 0 ∨ s.audio_state.fs_audio ∈ supported_rates := by
  intro s h
  induction h with
  | setup en v => left; rfl
  | tick_v2 s r c n fi L fl _ ih =>
      rcases tick_v2_fs s r c n fi L fl with h | h
      · rw [h]; exact ih
      · rw [h]; exact est_zero_or_mem r c n
  | tick_v1 s r c n ei L _ ih =>
      rcases tick_v1_fs s r c n ei L with h | h
      · rw [h]; exact ih
      · rw [h]; exact est_zero_or_mem r c n
  | rate_change s r c n ei ff _ ih =>
      rcases rate_change_fs s r c n ei ff with h | h
      · rw [h]; exact ih
      · rw [h]; exact est_zero_or_mem r c n
  | isr_ctsn s ints _ ih =>
      rw [isr_ctsn_fs]; exact ih
  | isr_fifoints s ints _ ih =>
      rw [isr_fifoints_fs]; exact ih

/-- Claim C3, witnessed at the state produced by audio setup. -/
theorem claim_C3_witness :
    (rk628_hdmirx_audio_setup allocState false false).audio_state.fs_audio = 0 ∨
    (rk628_hdmirx_audio_setup allocState false false).audio_state.fs_audio
      ∈ supported_rates :=
  claim_C3 _ (Reachable.setup false false)

/-- Claim C4, witnessed at concrete register values. -/
theorem claim_C4_witness : rk628_hdmirx_audio_fs_est 3000 0 5644 = 0 :=
  claim_C4 3000 5644

/-- Claim C9, witnessed at the zeroed allocation state. -/
theorem claim_C9_witness :
    rk628_hdmirx_audio_fifo_init (rk628_hdmirx_audio_fifo_init allocState) =
      rk628_hdmirx_audio_fifo_init allocState ∧
    (rk628_hdmirx_audio_fifo_init allocState).audio_state.init_state = 256 ∧
    (rk628_hdmirx_audio_fifo_init allocState).audio_state.pre_state = 256 :=
  claim_C9 allocState
